import Mathlib

/-!
Shallow embedding of the chttp sources (src/client.rs, src/manager.rs,
src/options.rs) for checking the natural-language specification.

Rust strings are modelled as lists of byte values (`List Nat`, each < 256);
`str::from_utf8` is modelled by an explicit UTF-8 validator; Rust panics
(out-of-bounds byte slicing, `unimplemented!()`) are modelled by `none` in an
`Option` result.
-/

namespace Chttp

/-- A byte of input, as a natural number < 256. -/
abbrev Byte := Nat

/-- `lo ≤ c ≤ hi`, the shape of every UTF-8 continuation-byte check. -/
def contOk (lo hi c : Byte) : Bool := lo ≤ c && c ≤ hi

/-- For a UTF-8 lead byte, the admissible ranges of the continuation bytes
that must follow it (the table of Rust `str::from_utf8`, which rejects
overlong encodings, surrogates and values above U+10FFFF); `none` for an
invalid lead byte. An ASCII byte needs no continuation bytes. -/
def utf8Spec (b : Byte) : Option (List (Byte × Byte)) :=
  if b ≤ 0x7F then some []
  else if 0xC2 ≤ b && b ≤ 0xDF then some [(0x80, 0xBF)]
  else if b = 0xE0 then some [(0xA0, 0xBF), (0x80, 0xBF)]
  else if (0xE1 ≤ b && b ≤ 0xEC) || b = 0xEE || b = 0xEF then
    some [(0x80, 0xBF), (0x80, 0xBF)]
  else if b = 0xED then some [(0x80, 0x9F), (0x80, 0xBF)]
  else if b = 0xF0 then some [(0x90, 0xBF), (0x80, 0xBF), (0x80, 0xBF)]
  else if 0xF1 ≤ b && b ≤ 0xF3 then some [(0x80, 0xBF), (0x80, 0xBF), (0x80, 0xBF)]
  else if b = 0xF4 then some [(0x80, 0x8F), (0x80, 0xBF), (0x80, 0xBF)]
  else none

/-- Whether a chunk of bytes matches a list of continuation-byte ranges,
position by position (and has exactly that length). -/
def contMatch : List (Byte × Byte) → List Byte → Bool
  | [], [] => true
  | (lo, hi) :: spec, c :: cs => contOk lo hi c && contMatch spec cs
  | _, _ => false

/-- Fuelled UTF-8 validation: each step consumes the lead byte and its
continuation bytes. One unit of fuel per byte always suffices, since every
step consumes at least the lead byte. -/
def validUtf8Fuel : Nat → List Byte → Bool
  | _, [] => true
  | 0, _ :: _ => false
  | fuel + 1, b :: rest =>
    match utf8Spec b with
    | none => false
    | some spec =>
      contMatch spec (rest.take spec.length) &&
        validUtf8Fuel fuel (rest.drop spec.length)

/-- Model of the validity check done by Rust `str::from_utf8`. -/
def validUtf8 (l : List Byte) : Bool := validUtf8Fuel l.length l

/-- Rust `str::is_char_boundary`: index 0, the length, or a byte that is not a
UTF-8 continuation byte. -/
def isCharBoundary (s : List Byte) (i : Nat) : Bool :=
  i == 0 || i == s.length || (i < s.length && !contOk 0x80 0xBF (s.getD i 0))

/-- Rust byte-range slicing `&s[a..b]` on a `str`: `none` models the panic on an
out-of-bounds index or a non-boundary index. -/
def strSlice (s : List Byte) (a b : Nat) : Option (List Byte) :=
  if a ≤ b && b ≤ s.length && isCharBoundary s a && isCharBoundary s b then
    some ((s.drop a).take (b - a))
  else none

/-- Rust `&s[a..]`, i.e. `&s[a..s.len()]`. -/
def strSliceFrom (s : List Byte) (a : Nat) : Option (List Byte) :=
  strSlice s a s.length

/-- Byte index of the first occurrence of byte `c`, modelling `str::find` for a
one-byte ASCII pattern (an ASCII byte never occurs inside a multi-byte
UTF-8 sequence, so the byte index is the character match position). -/
def findByte (s : List Byte) (c : Byte) : Option Nat :=
  match s with
  | [] => none
  | b :: rest => if b = c then some 0 else (findByte rest c).map (· + 1)

/-- ASCII whitespace byte (Rust `char::is_whitespace` restricted to ASCII,
which covers every input considered in this development). -/
def isAsciiWs (b : Byte) : Bool := b == 32 || (9 ≤ b && b ≤ 13)

/-- Model of Rust `str::trim` on ASCII text: drop leading and trailing
whitespace bytes. -/
def trimBytes (s : List Byte) : List Byte :=
  ((s.dropWhile isAsciiWs).reverse.dropWhile isAsciiWs).reverse

/-- `u8::wrapping_sub`: subtraction modulo 256 on byte values. A byte below
the subtrahend wraps to a large value instead of clamping to 0. -/
def wrappingSubU8 (a b : Byte) : Byte := (a + 256 - b % 256) % 256

/-- Model of `http::StatusCode::from_str` (via `StatusCode::from_bytes`):
exactly three bytes; each byte has `b'0'` subtracted with wrapping, so any
byte outside the ASCII digits fails the `> 9` check (a byte below `'0'`
wraps to at least 208), and the first digit must be nonzero; yields the
three-digit numeric code 100..999. -/
def statusCodeFromBytes (s : List Byte) : Option Nat :=
  match s with
  | [a, b, c] =>
    let x := wrappingSubU8 a 48
    let y := wrappingSubU8 b 48
    let z := wrappingSubU8 c 48
    if x == 0 || x > 9 || y > 9 || z > 9 then none
    else some (x * 100 + y * 10 + z)
  | _ => none

/-- `http::Version`. -/
inductive HttpVersion where
  | http09
  | http10
  | http11
  | http2
deriving DecidableEq, Repr

/-- `http::Version::default()` is HTTP/1.1. -/
def HttpVersion.default : HttpVersion := HttpVersion.http11

/-- The bytes of the ASCII string "HTTP/". -/
def httpMarker : List Byte := [72, 84, 84, 80, 47]

/-- The bytes of "HTTP/2.0". -/
def bytesHttp20 : List Byte := [72, 84, 84, 80, 47, 50, 46, 48]

/-- The bytes of "HTTP/1.1". -/
def bytesHttp11 : List Byte := [72, 84, 84, 80, 47, 49, 46, 49]

/-- The bytes of "HTTP/1.0". -/
def bytesHttp10 : List Byte := [72, 84, 84, 80, 47, 49, 46, 48]

/-- The bytes of "HTTP/0.9". -/
def bytesHttp09 : List Byte := [72, 84, 84, 80, 47, 48, 46, 57]

/-- The explicit protocol-version mapping of manager.rs lines 216-222: match on
the first eight bytes of the status line, with `http::Version::default()`
for anything unrecognized. -/
def parseVersion (m : List Byte) : HttpVersion :=
  if m = bytesHttp20 then HttpVersion.http2
  else if m = bytesHttp11 then HttpVersion.http11
  else if m = bytesHttp10 then HttpVersion.http10
  else if m = bytesHttp09 then HttpVersion.http09
  else HttpVersion.default

/-- The relevant surface of `http::response::Builder`: the version, status and
header collection it accumulates. The spec treats the header collection as
insertion-ordered with duplicate names allowed; headers are (name bytes,
value bytes) pairs appended in receipt order. -/
structure ResponseBuilder where
  version : Option HttpVersion
  status : Option Nat
  headers : List (List Byte × List Byte)
deriving DecidableEq, Repr

/-- Per-transfer state driven by the engine callbacks. The struct itself is
absent from manager.rs (only `impl curl::easy::Handler for TransferState`
uses it); its fields are taken from that impl's uses: a response builder, a
header-complete flag, and the response-body buffer. -/
structure TransferState where
  response : ResponseBuilder
  header_complete : Bool
  buffer : List Byte
deriving DecidableEq, Repr

/-- `TransferState::new()`: empty builder, header section not complete. -/
def TransferState.new : TransferState :=
  { response := { version := none, status := none, headers := [] }
    header_complete := false
    buffer := [] }

/-- The bytes of "\r\n". -/
def crlf : List Byte := [13, 10]

/-- Model of `fn header(&mut self, data: &[u8]) -> bool` (manager.rs lines
203-252). Returns the updated state and the callback's boolean; `none`
models a Rust panic from an out-of-bounds byte slice (`&line[0..8]`,
`&line[9..12]`, `&value[2..]`). Mirrors the source's order of checks:
UTF-8 decode, "HTTP/" status line, colon header line, "\r\n" terminator,
otherwise unhandled. -/
def TransferState.header (st : TransferState) (data : List Byte) :
    Option (TransferState × Bool) :=
  if !validUtf8 data then some (st, false)
  else
    let line := data
    if httpMarker.isPrefixOf line then
      -- Parse the HTTP protocol version from &line[0..8].
      match strSlice line 0 8 with
      | none => none
      | some verBytes =>
        let version := parseVersion verBytes
        let st := { st with response := { st.response with version := some version } }
        -- Parse the status code from &line[9..12].
        match strSlice line 9 12 with
        | none => none
        | some codeBytes =>
          match statusCodeFromBytes codeBytes with
          | none => some (st, false)
          | some code =>
            some ({ st with response := { st.response with status := some code } }, true)
    else
      match findByte line 58 with
      | some pos =>
        -- split_at(pos): name = line[..pos], value = line[pos..] (value keeps the colon);
        -- then value[2..].trim().
        let name := line.take pos
        let value := line.drop pos
        match strSliceFrom value 2 with
        | none => none
        | some v =>
          let v := trimBytes v
          some ({ st with response :=
                    { st.response with headers := st.response.headers ++ [(name, v)] } },
                true)
      | none =>
        if line = crlf then some ({ st with header_complete := true }, true)
        else some (st, false)

/-- `std::time::Duration`, to the precision the options use. -/
structure Duration where
  secs : Nat
  nanos : Nat
deriving DecidableEq, Repr

/-- `Duration::from_secs`. -/
def Duration.fromSecs (n : Nat) : Duration := ⟨n, 0⟩

/-- `RedirectPolicy` from options.rs. -/
inductive RedirectPolicy where
  | none
  | follow
  | limit (max : Nat)
deriving DecidableEq, Repr

/-- `impl Default for RedirectPolicy` (options.rs lines 114-118). -/
def RedirectPolicy.default : RedirectPolicy := RedirectPolicy.none

/-- `Options` from options.rs (the proxy URI and cipher list are opaque
strings here; only their presence matters to the claims). -/
structure Options where
  redirect_policy : RedirectPolicy
  preferred_http_version : Option HttpVersion
  timeout : Option Duration
  connect_timeout : Duration
  tcp_keepalive : Option Duration
  tcp_nodelay : Bool
  auto_referer : Bool
  proxy : Option String
  ssl_cipher_list : Option String
deriving DecidableEq, Repr

/-- `impl Default for Options` (options.rs lines 77-91). -/
def Options.default : Options :=
  { redirect_policy := RedirectPolicy.default
    preferred_http_version := none
    timeout := none
    connect_timeout := Duration.fromSecs 300
    tcp_keepalive := none
    tcp_nodelay := false
    auto_referer := false
    proxy := none
    ssl_cipher_list := none }

/-- Decidable equality for `Except`, needed to compare engine results. -/
instance instDecEqExcept {ε α : Type} [DecidableEq ε] [DecidableEq α] :
    DecidableEq (Except ε α) := fun a b =>
  match a, b with
  | Except.ok x, Except.ok y =>
    if h : x = y then isTrue (by rw [h])
    else isFalse (fun he => h (by cases he; rfl))
  | Except.error x, Except.error y =>
    if h : x = y then isTrue (by rw [h])
    else isFalse (fun he => h (by cases he; rfl))
  | Except.ok _, Except.error _ => isFalse (fun he => Except.noConfusion he)
  | Except.error _, Except.ok _ => isFalse (fun he => Except.noConfusion he)

/-- An error from the native transfer engine (`curl::Error` / `Error`), kept
abstract as a numeric code. -/
structure EngineError where
  code : Nat
deriving DecidableEq, Repr

/-- `IncomingRequest`: an easy handle whose handler is a `TransferState` (the
engine-side configuration of the handle is opaque to the reactor claims). -/
structure IncomingRequest where
  state : TransferState
deriving DecidableEq, Repr

/-- `Message` from manager.rs: the commands drained by the reactor. Tokens are
the underlying `usize`. -/
inductive Message where
  | begin (request : IncomingRequest)
  | unpause (token : Nat)
deriving DecidableEq, Repr

/-- `ActiveRequest`: the Pending Transfer Entry stored in the slab. In the
source it holds only the registered easy handle (so only its transfer
state); notably it holds no completion-channel sender. -/
structure ActiveRequest where
  state : TransferState
deriving DecidableEq, Repr

/-- The reactor-owned state of `Manager`: the token table of active requests
(the slab, as token/entry pairs). -/
structure ManagerState where
  handles : List (Nat × ActiveRequest)
deriving DecidableEq, Repr

/-- Whether a token names a currently active entry in the table. -/
def tokenActive (st : ManagerState) (t : Nat) : Bool :=
  st.handles.any (fun p => p.1 == t)

/-- The cross-thread side: the mpsc command queue plus the count of unread
bytes sitting in the self-pipe used as the wake signal. -/
structure ChannelState where
  queue : List Message
  wakeBytes : Nat
deriving DecidableEq, Repr

/-- `ManagerHandle::send` (manager.rs lines 59-63): enqueue the message, then
write exactly one byte to the notify pipe. -/
def ManagerHandle.send (ch : ChannelState) (m : Message) : ChannelState :=
  { queue := ch.queue ++ [m], wakeBytes := ch.wakeBytes + 1 }

/-- The notify-drain step of `Manager::dispatch` (manager.rs line 95): a single
`read` into a one-byte buffer consumes at most one pending wake byte. -/
def drainWake (wakeBytes : Nat) : Nat :=
  wakeBytes - min 1 wakeBytes

/-- `Manager::handle_pending_messages` (manager.rs lines 120-131), processing
the drained command queue front to back. `none` models the
`unimplemented!()` panic on `Begin`; the body of the `Unpause` arm is
commented out in the source, so it changes nothing. -/
def handle_pending_messages (st : ManagerState) :
    List Message → Option ManagerState
  | [] => some st
  | Message.begin _ :: _ => none
  | Message.unpause _ :: rest => handle_pending_messages st rest

/-- One finished-transfer report from `multi.messages`: the token lookup and
the per-transfer result, when present. -/
structure EngineMsg where
  token : Option Nat
  result : Option (Except EngineError Unit)
deriving DecidableEq, Repr

/-- The closure of manager.rs lines 106-114 folded over the engine's reports:
it only records the last per-transfer error into the local `result`
variable; the `self.handles.remove(token)` call is commented out and no
completion delivery exists. -/
def messagesLoop (msgs : List EngineMsg) (result : Option EngineError) :
    Option EngineError :=
  match msgs with
  | [] => result
  | m :: rest =>
    let result :=
      match m.result with
      | some (Except.error e) => some e
      | _ => result
    messagesLoop rest result

/-- A completion handed back to a caller: the token and the outcome for that
transfer. Nothing in the source's dispatch constructs one. -/
structure Delivery where
  token : Nat
  outcome : Except EngineError TransferState
deriving DecidableEq, Repr

/-- The engine-dependent inputs of one `Manager::dispatch` call: the outcomes
of `multi.get_timeout` (recommended timeout in ms), `multi.wait`, the
readiness of the notify pipe, `multi.perform` (number of running
transfers), and the reports visited by `multi.messages`. -/
structure EngineInput where
  getTimeout : Except EngineError (Option Nat)
  waitResult : Except EngineError Unit
  receivedRead : Bool
  performResult : Except EngineError Nat
  finished : List EngineMsg
deriving DecidableEq, Repr

/-- `DEFAULT_TIMEOUT_MS` (manager.rs line 17). -/
def DEFAULT_TIMEOUT_MS : Nat := 1000

/-- What one `dispatch` call produced: the reactor state and channel state
afterwards, the completions it delivered, and its `Result`. -/
structure DispatchResult where
  state : ManagerState
  chan : ChannelState
  deliveries : List Delivery
  result : Except EngineError Unit
deriving DecidableEq, Repr

/-- `Manager::dispatch` (manager.rs lines 86-118). `none` models a panic
escaping the call; an `Except.error` result models an early `?` return
(whose state changes up to that point persist, and which `run` discards).
The command queue is always drained in full; the notify read consumes at
most one wake byte; the finished-descriptor phase leaves the token table
untouched and delivers nothing. -/
def dispatch (st : ManagerState) (ch : ChannelState) (inp : EngineInput) :
    Option DispatchResult :=
  match inp.getTimeout with
  | Except.error e => some ⟨st, ch, [], Except.error e⟩
  | Except.ok tmo =>
    let _timeout := tmo.getD DEFAULT_TIMEOUT_MS
    match inp.waitResult with
    | Except.error e => some ⟨st, ch, [], Except.error e⟩
    | Except.ok _ =>
      -- Consume any notify bytes received while waiting (a single 1-byte read).
      let ch := if inp.receivedRead then { ch with wakeBytes := drainWake ch.wakeBytes } else ch
      match handle_pending_messages st ch.queue with
      | none => none
      | some st =>
        let ch := { ch with queue := [] }
        match inp.performResult with
        | Except.error e => some ⟨st, ch, [], Except.error e⟩
        | Except.ok running =>
          if running < st.handles.length then
            let _result := messagesLoop inp.finished none
            some ⟨st, ch, [], Except.ok ()⟩
          else
            some ⟨st, ch, [], Except.ok ()⟩

/-- What one iteration of `Manager::run` leads to. -/
inductive StepOutcome where
  | next (st : ManagerState) (ch : ChannelState)
  | panicked
deriving DecidableEq, Repr

/-- One iteration of the `loop` in `Manager::run` (manager.rs lines 79-84):
call `dispatch`, discard its `Result` (the `// TODO: Error handling`
line), and continue; a panic inside `dispatch` aborts the thread. -/
def run_step (st : ManagerState) (ch : ChannelState) (inp : EngineInput) :
    StepOutcome :=
  match dispatch st ch inp with
  | none => StepOutcome.panicked
  | some r => StepOutcome.next r.state r.chan

/-- `TransferStream` (manager.rs line 268): the source struct has no fields. -/
inductive TransferStream where
  | mk
deriving DecidableEq, Repr

/-- `impl Read for TransferStream` (manager.rs lines 270-279): a zero-length
buffer returns `Ok(0)` at once; any other call reaches `unimplemented!()`
(modelled as `none`). The stream value is returned unchanged to record
that nothing was touched. -/
def TransferStream.read (s : TransferStream) (buffer : List Byte) :
    Option (Nat × TransferStream) :=
  if buffer.length = 0 then some (0, s) else none

/-- Modelled from the spec: the header value the spec describes for a colon
line, "split into name/trimmed value" — everything after the colon at
position `pos`, trimmed. Compared against what the source computes. -/
def specSplitValue (line : List Byte) (pos : Nat) : List Byte :=
  trimBytes (line.drop (pos + 1))

/-- The bytes of "HTTP/1.1 200 OK\r\n". -/
def statusLine200 : List Byte :=
  [72, 84, 84, 80, 47, 49, 46, 49, 32, 50, 48, 48, 32, 79, 75, 13, 10]

/-- The bytes of "HTTP/\r\n": a truncated status line, 7 bytes long. -/
def shortStatusLine : List Byte := [72, 84, 84, 80, 47, 13, 10]

/-- The bytes of "A:B\r\n": a header line with no space after the colon. -/
def claimLineAB : List Byte := [65, 58, 66, 13, 10]

/-- The bytes of "Set-Cookie". -/
def scName : List Byte := [83, 101, 116, 45, 67, 111, 111, 107, 105, 101]

/-- The bytes of "Set-Cookie: a\r\n". -/
def setCookieA : List Byte := scName ++ [58, 32, 97, 13, 10]

/-- The bytes of "Set-Cookie: b\r\n". -/
def setCookieB : List Byte := scName ++ [58, 32, 98, 13, 10]

/-- The transfer state after parsing `setCookieA` from scratch. -/
def stepA : TransferState :=
  { TransferState.new with response :=
      { TransferState.new.response with headers := [(scName, [97])] } }

/-- The transfer state after parsing `setCookieA` then `setCookieB`. -/
def stepAB : TransferState :=
  { stepA with response :=
      { stepA.response with headers := [(scName, [97]), (scName, [98])] } }

/-- A reactor with no active transfers. -/
def emptyManager : ManagerState := ⟨[]⟩

/-- A reactor with one active transfer stored under token 0. -/
def managerOne : ManagerState := ⟨[(0, ⟨TransferState.new⟩)]⟩

/-- A freshly built request descriptor. -/
def exampleRequest : IncomingRequest := ⟨TransferState.new⟩

/-- An empty command channel with no pending wake bytes. -/
def chanZero : ChannelState := ⟨[], 0⟩

/-- Engine input for an iteration in which the one registered descriptor is
reported finished successfully (perform says 0 still running). -/
def finishedInput : EngineInput :=
  ⟨Except.ok (some 5), Except.ok (), true, Except.ok 0,
   [⟨some 0, some (Except.ok ())⟩]⟩

/-- Engine input whose `multi.wait` call fails. -/
def waitErrorInput : EngineInput :=
  ⟨Except.ok none, Except.error ⟨7⟩, false, Except.ok 0, []⟩

/-- Engine input for an idle iteration woken by the notify pipe. -/
def idleInput : EngineInput :=
  ⟨Except.ok none, Except.ok (), true, Except.ok 0, []⟩

/-- An all-ASCII byte list passes fuelled UTF-8 validation whenever it has at
least one unit of fuel per byte. -/
theorem validUtf8Fuel_of_ascii (l : List Byte) (fuel : Nat)
    (h : ∀ b ∈ l, b < 128) (hf : l.length ≤ fuel) :
    validUtf8Fuel fuel l = true := by
  induction l generalizing fuel with
  | nil => cases fuel <;> rfl
  | cons b rest ih =>
    match fuel, hf with
    | fuel + 1, hf =>
      have hb : b ≤ 0x7F := Nat.lt_succ_iff.mp (h b (List.mem_cons_self b rest))
      have hspec : utf8Spec b = some [] := by
        unfold utf8Spec
        rw [if_pos hb]
      rw [validUtf8Fuel, hspec]
      simp only [List.take_zero, List.drop_zero, List.length_nil, contMatch,
        Bool.true_and]
      exact ih fuel (fun x hx => h x (List.mem_cons_of_mem b hx))
        (Nat.le_of_succ_le_succ hf)

/-- An all-ASCII byte list is valid UTF-8. -/
theorem validUtf8_of_ascii (l : List Byte) (h : ∀ b ∈ l, b < 128) :
    validUtf8 l = true :=
  validUtf8Fuel_of_ascii l l.length h le_rfl

/-- Every index within an all-ASCII byte list is a character boundary. -/
theorem isCharBoundary_of_ascii (l : List Byte) (i : Nat)
    (h : ∀ b ∈ l, b < 128) (hi : i ≤ l.length) : isCharBoundary l i = true := by
  unfold isCharBoundary
  rcases Nat.lt_or_ge i l.length with hlt | hge
  · have hm : l.getD i 0 < 128 := by
      rw [List.getD_eq_getElem l 0 hlt]
      exact h _ (List.getElem_mem hlt)
    have hc : contOk 0x80 0xBF (l.getD i 0) = false := by
      unfold contOk
      have hx : ¬ (0x80 ≤ l.getD i 0) := Nat.not_le.mpr hm
      rw [decide_eq_false hx, Bool.false_and]
    simp only [Bool.or_eq_true, Bool.and_eq_true, beq_iff_eq, decide_eq_true_eq,
      Bool.not_eq_true']
    exact Or.inr ⟨hlt, hc⟩
  · have he : i = l.length := Nat.le_antisymm hi hge
    subst he
    simp

/-- Byte-range slicing never panics on all-ASCII input within bounds. -/
theorem strSlice_of_ascii (l : List Byte) (a b : Nat) (h : ∀ x ∈ l, x < 128)
    (hab : a ≤ b) (hb : b ≤ l.length) :
    strSlice l a b = some ((l.drop a).take (b - a)) := by
  unfold strSlice
  have h1 := isCharBoundary_of_ascii l a h (le_trans hab hb)
  have h2 := isCharBoundary_of_ascii l b h hb
  simp [hab, hb, h1, h2]

/-- Open-ended slicing `&s[a..]` on all-ASCII input within bounds. -/
theorem strSliceFrom_of_ascii (l : List Byte) (a : Nat) (h : ∀ x ∈ l, x < 128)
    (ha : a ≤ l.length) : strSliceFrom l a = some (l.drop a) := by
  unfold strSliceFrom
  rw [strSlice_of_ascii l a l.length h ha le_rfl]
  congr 1
  rw [← List.length_drop]
  exact List.take_length _

/-- Claim C9: the default `Options` value has exactly the documented defaults:
no redirect following, no preferred version, no total timeout, a 300 second
connect timeout, no keepalive, no TCP_NODELAY, no auto-referer, no proxy
and no cipher list. -/
theorem options_default_fields :
    Options.default.redirect_policy = RedirectPolicy.none ∧
    Options.default.preferred_http_version = none ∧
    Options.default.timeout = none ∧
    Options.default.connect_timeout = Duration.fromSecs 300 ∧
    Options.default.tcp_keepalive = none ∧
    Options.default.tcp_nodelay = false ∧
    Options.default.auto_referer = false ∧
    Options.default.proxy = none ∧
    Options.default.ssl_cipher_list = none :=
  ⟨rfl, rfl, rfl, rfl, rfl, rfl, rfl, rfl, rfl⟩

/-- Claim C10: `TransferStream::read` on a zero-length destination buffer
returns `Ok(0)` immediately, leaving the stream untouched; it cannot reach
the unimplemented (panicking) non-empty path. -/
theorem transfer_stream_zero_read (s : TransferStream) (buffer : List Byte)
    (h : buffer.length = 0) : s.read buffer = some (0, s) := by
  unfold TransferStream.read
  rw [if_pos h]

/-- Witness for C10 at the empty buffer. -/
theorem transfer_stream_zero_read_witness :
    TransferStream.read TransferStream.mk [] = some (0, TransferStream.mk) :=
  transfer_stream_zero_read TransferStream.mk [] rfl

/-- Claim C7: draining an `Unpause(token)` command whose token names no active
entry is a silent no-op: the command is consumed, the reactor state is
unchanged, and processing returns normally (no error, no panic). -/
theorem unpause_unknown_token_noop (st : ManagerState) (t : Nat)
    (rest : List Message) (h : tokenActive st t = false) :
    handle_pending_messages st (Message.unpause t :: rest) =
      handle_pending_messages st rest ∧
    handle_pending_messages st [Message.unpause t] = some st :=
  ⟨rfl, rfl⟩

/-- Witness for C7: an unknown token against an empty reactor. -/
theorem unpause_unknown_token_noop_witness :
    handle_pending_messages emptyManager [Message.unpause 5] = some emptyManager :=
  (unpause_unknown_token_noop emptyManager 5 [] rfl).2

/-- Claim C2 (code bug): draining a `Begin` command does not register the
descriptor, assign a token and store the entry — the `Begin` arm of
`handle_pending_messages` is `unimplemented!()`, so the drain panics (and
aborts the reactor loop) on any queue holding a `Begin`, whatever the
reactor state. -/
theorem begin_command_panics :
    handle_pending_messages emptyManager [Message.begin exampleRequest] = none ∧
    handle_pending_messages managerOne [Message.begin exampleRequest] = none :=
  ⟨rfl, rfl⟩

/-- Claim C1 (code bug): in an iteration where the engine reports the sole
registered descriptor (token 0) finished, `dispatch` returns successfully
but the Pending Transfer Entry is still in the table (the removal is
commented out) and no completion is delivered on any channel (no delivery
code exists), not the required exactly-once delivery plus removal. -/
theorem dispatch_finished_descriptor_ignored :
    (dispatch managerOne ⟨[], 1⟩ finishedInput).map
        (fun r => (r.state, r.deliveries, r.result)) =
      some (managerOne, [], Except.ok ()) ∧
    tokenActive managerOne 0 = true :=
  ⟨by decide, rfl⟩

/-- Claim C6 (code bug): each of two `ManagerHandle::send` calls between
drains writes one wake byte, but the notify-drain of `dispatch` is a
single one-byte read, so one drain step leaves 1 of the 2 pending wake
bytes undrained instead of consuming the whole backlog. -/
theorem wake_backlog_not_coalesced :
    (ManagerHandle.send (ManagerHandle.send chanZero (Message.unpause 0))
        (Message.unpause 1)).wakeBytes = 2 ∧
    drainWake 2 = 1 ∧
    (dispatch emptyManager ⟨[], 2⟩ idleInput).map (fun r => r.chan.wakeBytes) =
      some 1 :=
  ⟨rfl, rfl, by decide⟩

/-- Claim C8 (code bug): the reactor loop survives a failed `multi.wait`
(`run` discards the `Result`, without any logging), but a single iteration
that drains a `Begin` command panics and aborts the thread, so the loop
does terminate on a single bad iteration. -/
theorem reactor_step_aborts_on_begin :
    run_step emptyManager ⟨[Message.begin exampleRequest], 1⟩ finishedInput =
      StepOutcome.panicked ∧
    run_step emptyManager chanZero waitErrorInput =
      StepOutcome.next emptyManager chanZero :=
  ⟨by decide, by decide⟩

/-- Claim C4 (code bug): non-UTF-8 input does make the header callback return
false, but a 7-byte line "HTTP/\r\n" — a malformed status line — reaches
the unchecked byte slice `&line[0..8]` and panics instead of returning
false, so the callback is not total over inputs of any length. -/
theorem header_short_status_line_panics :
    TransferState.new.header shortStatusLine = none ∧
    TransferState.new.header [255] = some (TransferState.new, false) :=
  ⟨by decide, by decide⟩

/-- Counterexample for C5: on the line "A:B\r\n" (no space after the colon)
the callback appends the header ("A", "") — `value[2..]` skips the colon
and the first value byte — whereas splitting at the colon and trimming,
as the claim states, would give the value "B". -/
theorem header_colon_value_counterexample :
    TransferState.new.header claimLineAB =
      some ({ TransferState.new with response :=
        { TransferState.new.response with headers := [([65], [])] } }, true) ∧
    specSplitValue claimLineAB 1 = [66] ∧
    ([] : List Byte) ≠ [66] :=
  ⟨by decide, by decide, by decide⟩

/-- Claim C5 as amended: for an ASCII line not starting with "HTTP/": if the
line has a colon at first position `pos` with at least two bytes from
`pos` on, the callback appends the pair (bytes before the colon, bytes
from `pos + 2` on — skipping the colon and the byte after it, normally
the space — trimmed) at the end of the header collection, preserving
order and permitting duplicates, and accepts the line; a line that is
exactly "\r\n" marks the header section complete; any other line without
a colon is reported unhandled (returns false). -/
theorem header_line_amended (st : TransferState) (line : List Byte)
    (hascii : ∀ b ∈ line, b < 128)
    (hns : httpMarker.isPrefixOf line = false) :
    (∀ pos, findByte line 58 = some pos → pos + 2 ≤ line.length →
      st.header line =
        some ({ st with response := { st.response with
                  headers := st.response.headers ++
                    [(line.take pos, trimBytes (line.drop (pos + 2)))] } }, true)) ∧
    (findByte line 58 = none → line = crlf →
      st.header line = some ({ st with header_complete := true }, true)) ∧
    (findByte line 58 = none → line ≠ crlf →
      st.header line = some (st, false)) := by
  have hutf : validUtf8 line = true := validUtf8_of_ascii line hascii
  refine ⟨?_, ?_, ?_⟩
  · intro pos hfind hlen
    have hdp : ∀ x ∈ line.drop pos, x < 128 :=
      fun x hx => hascii x (List.mem_of_mem_drop hx)
    have hlen2 : 2 ≤ (line.drop pos).length := by
      rw [List.length_drop]
      omega
    have hsf : strSliceFrom (line.drop pos) 2 = some (line.drop (pos + 2)) := by
      rw [strSliceFrom_of_ascii (line.drop pos) 2 hdp hlen2, List.drop_drop,
        Nat.add_comm]
    simp only [TransferState.header, hutf, Bool.not_true, Bool.false_eq_true,
      if_false, hns, hfind, hsf]
  · intro _ hcr
    subst hcr
    rfl
  · intro hfind hne
    simp only [TransferState.header, hutf, Bool.not_true, Bool.false_eq_true,
      if_false, hns, hfind]
    rw [if_neg hne]

/-- Witness for C5 as amended: two "Set-Cookie" lines processed in order both
survive, in receipt order, with their trimmed values. -/
theorem header_line_amended_witness :
    TransferState.new.header setCookieA = some (stepA, true) ∧
    stepA.header setCookieB = some (stepAB, true) := by
  constructor
  · have h := (header_line_amended TransferState.new setCookieA (by decide)
      (by decide)).1 10 (by decide) (by decide)
    exact h.trans (by decide)
  · have h := (header_line_amended stepA setCookieB (by decide)
      (by decide)).1 10 (by decide) (by decide)
    exact h.trans (by decide)

/-- Claim C3: an ASCII status line of at least 12 bytes beginning with
"HTTP/" whose bytes 9..12 form a valid 3-digit status code is accepted:
the version is set by the explicit mapping applied to its first eight
bytes (so an unrecognized version token alone never rejects the line) and
the status is set to the parsed code. -/
theorem status_line_parsed (st : TransferState) (line : List Byte) (code : Nat)
    (hascii : ∀ b ∈ line, b < 128)
    (hpre : httpMarker.isPrefixOf line = true)
    (hlen : 12 ≤ line.length)
    (hcode : statusCodeFromBytes ((line.drop 9).take 3) = some code) :
    st.header line =
      some ({ st with response := { st.response with
                version := some (parseVersion (line.take 8)),
                status := some code } }, true) := by
  have hutf : validUtf8 line = true := validUtf8_of_ascii line hascii
  have h08 : strSlice line 0 8 = some (line.take 8) := by
    rw [strSlice_of_ascii line 0 8 hascii (by omega) (by omega)]
    norm_num
  have h912 : strSlice line 9 12 = some ((line.drop 9).take 3) := by
    rw [strSlice_of_ascii line 9 12 hascii (by omega) (by omega)]
  simp only [TransferState.header, hutf, Bool.not_true, Bool.false_eq_true,
    if_false, hpre, if_true, h08, h912, hcode]

/-- Witness for C3: "HTTP/1.1 200 OK\r\n" parses to version HTTP/1.1 and
status 200, and an unrecognized version token still maps to the default
without rejecting the line. -/
theorem status_line_parsed_witness :
    TransferState.new.header statusLine200 =
      some ({ TransferState.new with response :=
        { TransferState.new.response with
            version := some HttpVersion.http11, status := some 200 } }, true) ∧
    parseVersion (statusLine200.take 8) = HttpVersion.http11 := by
  constructor
  · have h := status_line_parsed TransferState.new statusLine200 200 (by decide)
      (by decide) (by decide) (by decide)
    exact h.trans (by decide)
  · decide

end Chttp
